import Mathlib

/-!
Shallow embedding of the soft-tissue deformation kernel of this repository
(liver.py: BioSimFinal, nose.py: NoseSimFinal).  Python float arithmetic is
idealised as real arithmetic; Panda3D LVector3 is modelled as a record of
three reals; the per-vertex parallel arrays (rest positions, rest normals,
live positions, velocities) are modelled as lists; the GeomVertexRewriter
loop of deform_mesh is modelled as simultaneous structural recursion over
those lists.  A Python value that may be None is an Option.
-/

open scoped Classical

noncomputable section

/-- Model of Panda3D LVector3: three real components. -/
structure Vec3 where
  x : ℝ
  y : ℝ
  z : ℝ

instance : Zero Vec3 := ⟨⟨0, 0, 0⟩⟩

instance : Add Vec3 := ⟨fun a b => ⟨a.x + b.x, a.y + b.y, a.z + b.z⟩⟩

instance : Sub Vec3 := ⟨fun a b => ⟨a.x - b.x, a.y - b.y, a.z - b.z⟩⟩

instance : Neg Vec3 := ⟨fun a => ⟨-a.x, -a.y, -a.z⟩⟩

/-- Vector-times-scalar, as Panda3D writes `v * c`. -/
instance : HMul Vec3 ℝ Vec3 := ⟨fun v c => ⟨v.x * c, v.y * c, v.z * c⟩⟩

/-- Vector-divided-by-scalar, as Panda3D writes `v / c`. -/
instance : HDiv Vec3 ℝ Vec3 := ⟨fun v c => ⟨v.x / c, v.y / c, v.z / c⟩⟩

/-- Euclidean length, Panda3D `v.length()`. -/
def Vec3.length (v : Vec3) : ℝ :=
  Real.sqrt (v.x * v.x + v.y * v.y + v.z * v.z)

/-- Panda3D `v.normalized()`: divide by the length (a zero vector stays zero,
matching Panda3D, because division by zero yields zero here). -/
def Vec3.normalized (v : Vec3) : Vec3 :=
  v / v.length

/-- The two squeeze modes selected by the UI buttons (`self.squeeze_mode`,
the strings "hard" and "soft"). -/
inductive SqueezeMode where
  | hard
  | soft
deriving DecidableEq

/-- Interaction radius computed inside deform_mesh in both liver.py and
nose.py: `interaction_radius = 2.0 if self.squeeze_mode == "hard" else 4.0`,
then `if self.vr_mode_active: interaction_radius += 1.5`. -/
def interaction_radius (mode : SqueezeMode) (vr_mode_active : Bool) : ℝ :=
  let base : ℝ := if mode = SqueezeMode.hard then 2.0 else 4.0
  if vr_mode_active then base + 1.5 else base

namespace Liver

/-- Tunable attributes of BioSimFinal read by set_mode / deform_mesh.
liver.py sets `self.user_force = 60.0` and `self.recovery_speed = 8.0` in
`__init__` and never writes `recovery_speed` again. -/
structure Params where
  squeeze_mode : SqueezeMode
  user_force : ℝ
  recovery_speed : ℝ

/-- Initial parameter values from BioSimFinal.__init__
(`squeeze_mode = "hard"`, `user_force = 60.0`, `recovery_speed = 8.0`). -/
def initParams : Params :=
  { squeeze_mode := SqueezeMode.hard, user_force := 60, recovery_speed := 8 }

/-- BioSimFinal.set_mode: assigns `self.squeeze_mode = mode` and recolours
two buttons; it touches no physics constant. -/
def set_mode (mode : SqueezeMode) (p : Params) : Params :=
  { p with squeeze_mode := mode }

/-- Spring constant computed at the top of BioSimFinal.deform_mesh:
`spring_k = self.recovery_speed * 5.0`. -/
def spring_k (p : Params) : ℝ :=
  p.recovery_speed * 5.0

/-- Damping coefficient at the top of BioSimFinal.deform_mesh: the literal
`damping = 10.0`. -/
def damping : ℝ :=
  10.0

/-- Mass at the top of BioSimFinal.deform_mesh: the literal `mass = 1.0`. -/
def mass : ℝ :=
  1.0

/-- Mesh arrays of BioSimFinal: `self.original_verts` (rest positions),
the live vertex column of `self.vdata`, and `self.vertex_velocities`. -/
structure MeshState where
  original_verts : List Vec3
  live_verts : List Vec3
  vertex_velocities : List Vec3

/-- BioSimFinal.extract_vertex_data: reads every vertex of the live buffer
into `self.original_verts` (so rest equals live at load) and zeroes
`self.vertex_velocities`.  It performs no validation and ignores the
previous arrays entirely.  liver.py reads no normals. -/
def extract_vertex_data (_prev : MeshState) (verts : List Vec3) : MeshState :=
  { original_verts := verts,
    live_verts := verts,
    vertex_velocities := List.replicate verts.length 0 }

/-- The per-vertex external force of BioSimFinal.deform_mesh.
`active_interaction = self.vr_mode_active or (self.is_squeezing)`; inside
`if active_interaction and hit_p`, with `dist = (orig_pos - hit_p).length()`
and the interaction radius, the force is either the radial repel
`(orig_pos - hit_p).normalized() * (user_force * 1.2) * influence` in VR
mode or `hit_n * -1 * (user_force * 1.2) * influence if hit_n else 0` in
mouse mode, with `influence = (1 - dist/radius) ** 3`. -/
def ext_force (vr_mode_active is_squeezing : Bool) (mode : SqueezeMode)
    (user_force : ℝ) (hit_p hit_n : Option Vec3) (orig_pos : Vec3) : Vec3 :=
  if vr_mode_active || is_squeezing then
    match hit_p with
    | some p =>
      let dist := (orig_pos - p).length
      let radius := interaction_radius mode vr_mode_active
      if dist < radius then
        let influence := (1 - dist / radius) ^ (3 : ℕ)
        if vr_mode_active then
          (orig_pos - p).normalized * (user_force * 1.2) * influence
        else
          match hit_n with
          | some n => n * (-1 : ℝ) * (user_force * 1.2) * influence
          | none => 0
      else 0
    | none => 0
  else 0

/-- The vertex loop of BioSimFinal.deform_mesh: for each index, the external
force, then forward Euler integration
(`displacement = cur - orig`, `spring_force = displacement * -spring_k`,
`damping_force = velocity * -damping`,
`accel = (ext + spring + damping) / mass`, `new_vel = velocity + accel*dt`,
`new_pos = cur + new_vel*dt`), writing back position and velocity. -/
def deform_vertices (vr_mode_active is_squeezing : Bool) (mode : SqueezeMode)
    (user_force springK dampingC massC dt : ℝ) (hit_p hit_n : Option Vec3) :
    List Vec3 → List Vec3 → List Vec3 → List Vec3 × List Vec3
  | cur_pos :: rest_cur, orig_pos :: rest_orig, velocity :: rest_vel =>
    let extF := ext_force vr_mode_active is_squeezing mode user_force hit_p hit_n orig_pos
    let displacement := cur_pos - orig_pos
    let spring_force := displacement * (-springK)
    let damping_force := velocity * (-dampingC)
    let accel := (extF + spring_force + damping_force) / massC
    let new_vel := velocity + accel * dt
    let new_pos := cur_pos + new_vel * dt
    let rest := deform_vertices vr_mode_active is_squeezing mode user_force
      springK dampingC massC dt hit_p hit_n rest_cur rest_orig rest_vel
    (new_pos :: rest.1, new_vel :: rest.2)
  | _, _, _ => ([], [])

/-- BioSimFinal.deform_mesh.  The Python function mutates the live buffer and
velocity list and falls off the end without a `return` statement, so its
return value is None: modelled as the updated state paired with
`(none : Option Bool)`. -/
def deform_mesh (p : Params) (vr_mode_active is_squeezing : Bool) (dt : ℝ)
    (hit_p hit_n : Option Vec3) (s : MeshState) : MeshState × Option Bool :=
  let res := deform_vertices vr_mode_active is_squeezing p.squeeze_mode
    p.user_force (spring_k p) damping mass dt hit_p hit_n
    s.live_verts s.original_verts s.vertex_velocities
  ({ s with live_verts := res.1, vertex_velocities := res.2 }, none)

/-- BioSimFinal.restore_immediate: writes every rest position back into the
live buffer and replaces the velocity list with zero vectors. -/
def restore_immediate (s : MeshState) : MeshState :=
  { s with live_verts := s.original_verts,
           vertex_velocities := List.replicate s.original_verts.length 0 }

end Liver

namespace Nose

/-- Tunable attributes of NoseSimFinal read by set_mode / deform_mesh.
nose.py initialises `user_force = 60.0`, `recovery_speed = 2.0`,
`damping_value = 3.0`, `squeeze_mode = "soft"`. -/
structure Params where
  squeeze_mode : SqueezeMode
  user_force : ℝ
  recovery_speed : ℝ
  damping_value : ℝ

/-- Initial parameter values from NoseSimFinal.__init__. -/
def initParams : Params :=
  { squeeze_mode := SqueezeMode.soft, user_force := 60,
    recovery_speed := 2, damping_value := 3 }

/-- NoseSimFinal.set_mode: assigns the mode, then
`recovery_speed, damping_value = (2.0, 3.0)` for soft or `(8.0, 10.0)`
otherwise. -/
def set_mode (mode : SqueezeMode) (p : Params) : Params :=
  if mode = SqueezeMode.soft then
    { p with squeeze_mode := mode, recovery_speed := 2.0, damping_value := 3.0 }
  else
    { p with squeeze_mode := mode, recovery_speed := 8.0, damping_value := 10.0 }

/-- Mesh arrays of NoseSimFinal: rest positions, rest normals, the live
vertex column of `self.vdata`, and the velocities. -/
structure MeshState where
  original_verts : List Vec3
  original_normals : List Vec3
  live_verts : List Vec3
  vertex_velocities : List Vec3

/-- NoseSimFinal.extract_vertex_data: for every vertex of the vertex stream
it appends the vertex to `original_verts` and, if the normal stream still
has an entry, that normal, otherwise the default `LVector3(0, 0, 1)`;
velocities are zeroed.  No validation is performed and the previous arrays
are ignored.  The rest normal at index i is therefore the normal stream
entry i when it exists and `(0,0,1)` otherwise. -/
def extract_vertex_data (_prev : MeshState) (verts normals : List Vec3) :
    MeshState :=
  { original_verts := verts,
    original_normals := (List.range verts.length).map
      (fun i => normals.getD i ⟨0, 0, 1⟩),
    live_verts := verts,
    vertex_velocities := List.replicate verts.length 0 }

/-- Per-vertex force and contact of NoseSimFinal.deform_mesh.
`active_interaction = self.vr_mode_active or
(self.is_squeezing and self.camera_locked)`; inside
`if active_interaction and hit_p`, when `dist < interaction_radius` the
loop sets `any_contact = True`, computes `sigma = interaction_radius/3.0`,
`influence = exp(-(dist*dist) / (2 * sigma * sigma))`, chooses
`push_dir = -self.original_normals[i]` when `i < len(original_normals)`
(else the inverted radial fallback), and applies
`push = push_dir * (self.user_force * 1.5) * influence`.
The Option argument is `original_normals[i]` when the index is in range. -/
def vertex_force_contact (vr_mode_active is_squeezing camera_locked : Bool)
    (mode : SqueezeMode) (user_force : ℝ) (hit_p : Option Vec3)
    (orig_pos : Vec3) (normal_i : Option Vec3) : Vec3 × Bool :=
  if vr_mode_active || (is_squeezing && camera_locked) then
    match hit_p with
    | some p =>
      let dist := (orig_pos - p).length
      let radius := interaction_radius mode vr_mode_active
      if dist < radius then
        let sigma := radius / 3.0
        let influence := Real.exp (-(dist * dist) / (2 * sigma * sigma))
        let push_dir : Vec3 :=
          match normal_i with
          | some n => -n
          | none => (orig_pos - p).normalized * (-1 : ℝ)
        (push_dir * (user_force * 1.5) * influence, true)
      else (0, false)
    | none => (0, false)
  else (0, false)

/-- The vertex loop of NoseSimFinal.deform_mesh: per-vertex force/contact,
then the same forward Euler integration as liver.py, or-accumulating
`any_contact`.  The normals list is consumed in lockstep so that its head
at step i is `original_normals[i]` exactly when `i < len(original_normals)`. -/
def deform_vertices (vr_mode_active is_squeezing camera_locked : Bool)
    (mode : SqueezeMode) (user_force springK dampingC massC dt : ℝ)
    (hit_p : Option Vec3) :
    List Vec3 → List Vec3 → List Vec3 → List Vec3 →
      List Vec3 × List Vec3 × Bool
  | cur_pos :: rest_cur, orig_pos :: rest_orig, velocity :: rest_vel, norms =>
    let fc := vertex_force_contact vr_mode_active is_squeezing camera_locked
      mode user_force hit_p orig_pos norms.head?
    let displacement := cur_pos - orig_pos
    let spring_force := displacement * (-springK)
    let damping_force := velocity * (-dampingC)
    let accel := (fc.1 + spring_force + damping_force) / massC
    let new_vel := velocity + accel * dt
    let new_pos := cur_pos + new_vel * dt
    let rest := deform_vertices vr_mode_active is_squeezing camera_locked mode
      user_force springK dampingC massC dt hit_p
      rest_cur rest_orig rest_vel norms.tail
    (new_pos :: rest.1, new_vel :: rest.2.1, fc.2 || rest.2.2)
  | _, _, _, _ => ([], [], false)

/-- NoseSimFinal.deform_mesh: `mass = 1.0`, `damping = self.damping_value`,
`spring_k = self.recovery_speed * 5.0`, loops over every vertex and
`return any_contact`.  The hit-normal parameter of the Python function is
never read by the nose kernel. -/
def deform_mesh (p : Params) (vr_mode_active is_squeezing camera_locked : Bool)
    (dt : ℝ) (hit_p _hit_n : Option Vec3) (s : MeshState) :
    MeshState × Bool :=
  let res := deform_vertices vr_mode_active is_squeezing camera_locked
    p.squeeze_mode p.user_force (p.recovery_speed * 5.0) p.damping_value 1.0
    dt hit_p s.live_verts s.original_verts s.vertex_velocities
    s.original_normals
  ({ s with live_verts := res.1, vertex_velocities := res.2.1 }, res.2.2)

/-- NoseSimFinal.restore_immediate: writes every rest position back into the
live buffer and replaces the velocity list with zero vectors. -/
def restore_immediate (s : MeshState) : MeshState :=
  { s with live_verts := s.original_verts,
           vertex_velocities := List.replicate s.original_verts.length 0 }

end Nose

end

/-! Component-level lemmas for the Vec3 operations. -/

theorem Vec3.zero_def : (0 : Vec3) = ⟨0, 0, 0⟩ := rfl

theorem Vec3.add_def (a b : Vec3) :
    a + b = ⟨a.x + b.x, a.y + b.y, a.z + b.z⟩ := rfl

theorem Vec3.sub_def (a b : Vec3) :
    a - b = ⟨a.x - b.x, a.y - b.y, a.z - b.z⟩ := rfl

theorem Vec3.neg_def (a : Vec3) : -a = ⟨-a.x, -a.y, -a.z⟩ := rfl

theorem Vec3.mul_def (v : Vec3) (c : ℝ) :
    v * c = ⟨v.x * c, v.y * c, v.z * c⟩ := rfl

theorem Vec3.div_def (v : Vec3) (c : ℝ) :
    v / c = ⟨v.x / c, v.y / c, v.z / c⟩ := rfl

theorem Vec3.mul_neg_one (v : Vec3) : v * (-1 : ℝ) = -v := by
  simp [Vec3.mul_def, Vec3.neg_def]

/-! Small list lemmas used to relate the lockstep consumption of the normals
list in the nose vertex loop to plain indexing. -/

theorem list_head?_eq_getElem? (l : List Vec3) : l.head? = l[0]? := by
  cases l <;> simp

theorem list_tail_getElem? (l : List Vec3) (n : ℕ) : l.tail[n]? = l[n + 1]? := by
  cases l <;> simp

theorem list_map_range_getD (l : List Vec3) (d : Vec3) :
    (List.range l.length).map (fun i => l.getD i d) = l := by
  induction l with
  | nil => simp
  | cons a t ih =>
    simp only [List.length_cons, List.range_succ_eq_map, List.map_cons,
      List.map_map, List.getD_cons_zero]
    refine congrArg (a :: ·) ?_
    have h2 : ((fun i => (a :: t).getD i d) ∘ Nat.succ) = fun i => t.getD i d := by
      funext i
      simp [List.getD_cons_succ]
    rw [h2, ih]

/-! Evaluation lemmas for the mode-dependent constants. -/

theorem soft_ne_hard : SqueezeMode.soft ≠ SqueezeMode.hard :=
  fun h => SqueezeMode.noConfusion h

theorem hard_ne_soft : SqueezeMode.hard ≠ SqueezeMode.soft :=
  fun h => SqueezeMode.noConfusion h

theorem radius_hard_false : interaction_radius SqueezeMode.hard false = 2 := by
  norm_num [interaction_radius]

theorem radius_soft_false : interaction_radius SqueezeMode.soft false = 4 := by
  norm_num [interaction_radius, soft_ne_hard]

theorem radius_hard_true : interaction_radius SqueezeMode.hard true = 2 + 1.5 := by
  norm_num [interaction_radius]

theorem radius_soft_true : interaction_radius SqueezeMode.soft true = 4 + 1.5 := by
  norm_num [interaction_radius, soft_ne_hard]

theorem nose_set_mode_soft (p : Nose.Params) :
    Nose.set_mode SqueezeMode.soft p
      = { p with squeeze_mode := SqueezeMode.soft,
                 recovery_speed := 2.0, damping_value := 3.0 } := by
  rw [Nose.set_mode, if_pos rfl]

theorem nose_set_mode_hard (p : Nose.Params) :
    Nose.set_mode SqueezeMode.hard p
      = { p with squeeze_mode := SqueezeMode.hard,
                 recovery_speed := 8.0, damping_value := 10.0 } := by
  rw [Nose.set_mode, if_neg hard_ne_soft]

/-! Claim C9. -/

/-- C9: after restore_immediate, in both variants, the live positions equal
the rest positions and every velocity is the zero vector, regardless of the
prior live positions and velocities, and applying restore_immediate twice
leaves the same state as applying it once. -/
theorem c9_restore_to_rest :
    (∀ s : Liver.MeshState,
      (Liver.restore_immediate s).live_verts = s.original_verts ∧
      (Liver.restore_immediate s).vertex_velocities
        = List.replicate s.original_verts.length 0 ∧
      Liver.restore_immediate (Liver.restore_immediate s)
        = Liver.restore_immediate s) ∧
    (∀ s : Nose.MeshState,
      (Nose.restore_immediate s).live_verts = s.original_verts ∧
      (Nose.restore_immediate s).vertex_velocities
        = List.replicate s.original_verts.length 0 ∧
      Nose.restore_immediate (Nose.restore_immediate s)
        = Nose.restore_immediate s) :=
  ⟨fun _ => ⟨rfl, rfl, rfl⟩, fun _ => ⟨rfl, rfl, rfl⟩⟩

/-! Claim C8 (corrected).  The source performs no load validation at all:
extract_vertex_data replaces the mesh arrays unconditionally, also on empty
or mismatched input, and no InvalidMeshError (or any other error) exists in
the code. -/

/-- C8 counterexample: calling the nose extraction with empty positions and
normals, with a one-vertex mesh previously loaded, does not fail — it
silently replaces the previous mesh state with an empty one, contradicting
both the claimed InvalidMeshError and the claim that a failing load leaves
the previous mesh state untouched. -/
theorem c8_counterexample :
    (Nose.extract_vertex_data ⟨[⟨1, 0, 0⟩], [⟨0, 0, 1⟩], [⟨1, 0, 0⟩], [0]⟩ [] []).original_verts
        = [] ∧
    Nose.extract_vertex_data ⟨[⟨1, 0, 0⟩], [⟨0, 0, 1⟩], [⟨1, 0, 0⟩], [0]⟩ [] []
        ≠ ⟨[⟨1, 0, 0⟩], [⟨0, 0, 1⟩], [⟨1, 0, 0⟩], [0]⟩ := by
  constructor
  · rfl
  · intro h
    have h2 := congrArg Nose.MeshState.original_verts h
    simp [Nose.extract_vertex_data] at h2

/-- C8 amended: extract_vertex_data never fails and performs no validation;
in both variants it unconditionally replaces the previous mesh state: rest
positions copy the vertex stream, live positions copy rest, and every
velocity is zeroed — also for empty or length-mismatched input.  In the nose
variant the rest-normal array always has the vertex count as its length, and
equals the normal stream when the two streams have equal length. -/
theorem c8_amended_load_replaces_state :
    (∀ (prev : Liver.MeshState) (verts : List Vec3),
      (Liver.extract_vertex_data prev verts).original_verts = verts ∧
      (Liver.extract_vertex_data prev verts).live_verts = verts ∧
      (Liver.extract_vertex_data prev verts).vertex_velocities
        = List.replicate verts.length 0) ∧
    (∀ (prev : Nose.MeshState) (verts normals : List Vec3),
      (Nose.extract_vertex_data prev verts normals).original_verts = verts ∧
      (Nose.extract_vertex_data prev verts normals).live_verts = verts ∧
      (Nose.extract_vertex_data prev verts normals).vertex_velocities
        = List.replicate verts.length 0 ∧
      (Nose.extract_vertex_data prev verts normals).original_normals.length
        = verts.length ∧
      (normals.length = verts.length →
        (Nose.extract_vertex_data prev verts normals).original_normals
          = normals)) := by
  refine ⟨fun prev verts => ⟨rfl, rfl, rfl⟩,
    fun prev verts normals => ⟨rfl, rfl, rfl, by simp [Nose.extract_vertex_data], ?_⟩⟩
  intro hlen
  show (List.range verts.length).map (fun i => normals.getD i ⟨0, 0, 1⟩) = normals
  rw [← hlen]
  exact list_map_range_getD normals ⟨0, 0, 1⟩

/-- C8 amended witness: the amended statement applied to the nose variant at
a concrete one-vertex mesh with matching streams. -/
theorem c8_amended_witness :
    (Nose.extract_vertex_data ⟨[], [], [], []⟩ [⟨1, 2, 3⟩] [⟨0, 0, 1⟩]).original_verts
        = [⟨1, 2, 3⟩] ∧
    (Nose.extract_vertex_data ⟨[], [], [], []⟩ [⟨1, 2, 3⟩] [⟨0, 0, 1⟩]).original_normals
        = [⟨0, 0, 1⟩] :=
  ⟨(c8_amended_load_replaces_state.2 ⟨[], [], [], []⟩ [⟨1, 2, 3⟩] [⟨0, 0, 1⟩]).1,
   (c8_amended_load_replaces_state.2 ⟨[], [], [], []⟩ [⟨1, 2, 3⟩] [⟨0, 0, 1⟩]).2.2.2.2 rfl⟩

/-! Claim C7 (corrected).  In nose.py set_mode really selects the physics
constants, but in liver.py set_mode only stores the mode string: the liver
spring constant stays recovery_speed * 5.0 = 40.0 and the liver damping
coefficient is the fixed literal 10.0 in either mode. -/

/-- C7 counterexample: in the liver variant, Hard mode and Soft mode produce
the same spring constant (40.0) for identical inputs — Hard is not strictly
larger — because set_mode never touches recovery_speed, and the damping
coefficient is the mode-independent literal 10.0. -/
theorem c7_counterexample :
    Liver.spring_k (Liver.set_mode SqueezeMode.hard Liver.initParams)
      = Liver.spring_k (Liver.set_mode SqueezeMode.soft Liver.initParams) ∧
    Liver.spring_k (Liver.set_mode SqueezeMode.hard Liver.initParams) = 40 ∧
    ¬ Liver.spring_k (Liver.set_mode SqueezeMode.soft Liver.initParams)
        < Liver.spring_k (Liver.set_mode SqueezeMode.hard Liver.initParams) ∧
    Liver.damping = 10 := by
  norm_num [Liver.spring_k, Liver.set_mode, Liver.initParams, Liver.damping]

/-- C7 amended: Hard mode produces a strictly smaller interactionRadius than
Soft mode in both variants; in the nose variant Hard mode also selects a
strictly larger spring constant and damping coefficient than Soft mode; in
the liver variant set_mode leaves the spring constant unchanged (and the
damping coefficient is the fixed literal 10.0 in either mode). -/
theorem c7_amended_mode_asymmetry :
    (∀ vr : Bool,
      interaction_radius SqueezeMode.hard vr < interaction_radius SqueezeMode.soft vr) ∧
    (∀ p : Nose.Params,
      (Nose.set_mode SqueezeMode.soft p).recovery_speed * 5.0
          < (Nose.set_mode SqueezeMode.hard p).recovery_speed * 5.0 ∧
      (Nose.set_mode SqueezeMode.soft p).damping_value
          < (Nose.set_mode SqueezeMode.hard p).damping_value) ∧
    (∀ (p : Liver.Params) (m : SqueezeMode),
      Liver.spring_k (Liver.set_mode m p) = Liver.spring_k p ∧ Liver.damping = 10) := by
  refine ⟨fun vr => ?_, fun p => ?_, fun p m => ?_⟩
  · cases vr
    · rw [radius_hard_false, radius_soft_false]
      norm_num
    · rw [radius_hard_true, radius_soft_true]
      norm_num
  · rw [nose_set_mode_soft, nose_set_mode_hard]
    constructor <;> norm_num
  · constructor <;> norm_num [Liver.spring_k, Liver.set_mode, Liver.damping]

/-! Branch-evaluation lemmas for the per-vertex force computations. -/

theorem liver_ext_force_inactive (mode : SqueezeMode) (F : ℝ)
    (hp hn : Option Vec3) (orig : Vec3) :
    Liver.ext_force false false mode F hp hn orig = 0 := by
  unfold Liver.ext_force
  simp

theorem liver_ext_force_no_probe (vr sq : Bool) (mode : SqueezeMode) (F : ℝ)
    (hn : Option Vec3) (orig : Vec3) :
    Liver.ext_force vr sq mode F none hn orig = 0 := by
  unfold Liver.ext_force
  cases vr || sq <;> simp

theorem liver_ext_force_far (vr sq : Bool) (mode : SqueezeMode) (F : ℝ)
    (p : Vec3) (hn : Option Vec3) (orig : Vec3)
    (h : interaction_radius mode vr ≤ (orig - p).length) :
    Liver.ext_force vr sq mode F (some p) hn orig = 0 := by
  have h2 : ¬ (orig - p).length < interaction_radius mode vr := not_lt.mpr h
  unfold Liver.ext_force
  cases vr || sq <;> simp [h2]

theorem liver_ext_force_mouse_pick (mode : SqueezeMode) (F : ℝ) (p n orig : Vec3)
    (h : (orig - p).length < interaction_radius mode false) :
    Liver.ext_force false true mode F (some p) (some n) orig
      = n * (-1 : ℝ) * (F * 1.2)
          * (1 - (orig - p).length / interaction_radius mode false) ^ (3 : ℕ) := by
  unfold Liver.ext_force
  simp [h]

theorem liver_ext_force_mouse_pick_no_normal (mode : SqueezeMode) (F : ℝ)
    (p orig : Vec3) (h : (orig - p).length < interaction_radius mode false) :
    Liver.ext_force false true mode F (some p) none orig = 0 := by
  unfold Liver.ext_force
  simp [h]

theorem liver_ext_force_vr (sq : Bool) (mode : SqueezeMode) (F : ℝ)
    (p orig : Vec3) (hn : Option Vec3)
    (h : (orig - p).length < interaction_radius mode true) :
    Liver.ext_force true sq mode F (some p) hn orig
      = (orig - p).normalized * (F * 1.2)
          * (1 - (orig - p).length / interaction_radius mode true) ^ (3 : ℕ) := by
  unfold Liver.ext_force
  simp [h]

theorem nose_vfc_inactive (sq lock : Bool) (mode : SqueezeMode) (F : ℝ)
    (hp : Option Vec3) (orig : Vec3) (nm : Option Vec3)
    (h : (sq && lock) = false) :
    Nose.vertex_force_contact false sq lock mode F hp orig nm = (0, false) := by
  unfold Nose.vertex_force_contact
  simp [h]

theorem nose_vfc_no_probe (vr sq lock : Bool) (mode : SqueezeMode) (F : ℝ)
    (orig : Vec3) (nm : Option Vec3) :
    Nose.vertex_force_contact vr sq lock mode F none orig nm = (0, false) := by
  unfold Nose.vertex_force_contact
  cases vr || (sq && lock) <;> simp

theorem nose_vfc_far (vr sq lock : Bool) (mode : SqueezeMode) (F : ℝ)
    (p orig : Vec3) (nm : Option Vec3)
    (h : interaction_radius mode vr ≤ (orig - p).length) :
    Nose.vertex_force_contact vr sq lock mode F (some p) orig nm = (0, false) := by
  have h2 : ¬ (orig - p).length < interaction_radius mode vr := not_lt.mpr h
  unfold Nose.vertex_force_contact
  cases vr || (sq && lock) <;> simp [h2]

theorem nose_vfc_gauss (sq lock : Bool) (mode : SqueezeMode) (F : ℝ)
    (p orig n : Vec3)
    (h : (orig - p).length < interaction_radius mode true) :
    Nose.vertex_force_contact true sq lock mode F (some p) orig (some n)
      = ((-n) * (F * 1.5)
           * Real.exp (-((orig - p).length * (orig - p).length)
               / (2 * (interaction_radius mode true / 3.0)
                    * (interaction_radius mode true / 3.0))), true) := by
  unfold Nose.vertex_force_contact
  simp [h]

/-! Helpers for evaluating concrete vector lengths in witnesses. -/

theorem vec3_length_axis (a : ℝ) (h : 0 ≤ a) : (Vec3.mk a 0 0).length = a := by
  rw [Vec3.length]
  have h2 : a * a + 0 * 0 + 0 * 0 = a * a := by ring
  rw [h2, Real.sqrt_mul_self h]

theorem vec3_sub_zero_axis (a : ℝ) :
    (Vec3.mk a 0 0) - Vec3.mk 0 0 0 = Vec3.mk a 0 0 := by
  rw [Vec3.sub_def]
  norm_num

/-! Claim C5. -/

/-- C5: in both variants the per-vertex external force is the zero vector
whenever the interaction is inactive, or the probe position is absent, or
the rest distance to the probe is at least the interaction radius (the
boundary counts as outside, strict less-than); and the interaction radius
is 2.0 in Hard mode, 4.0 in Soft mode, plus 1.5 for the volumetric (VR)
probe. -/
theorem c5_zero_force_conditions :
    (∀ (mode : SqueezeMode) (F : ℝ) (hp hn : Option Vec3) (orig : Vec3),
      Liver.ext_force false false mode F hp hn orig = 0) ∧
    (∀ (vr sq : Bool) (mode : SqueezeMode) (F : ℝ) (hn : Option Vec3) (orig : Vec3),
      Liver.ext_force vr sq mode F none hn orig = 0) ∧
    (∀ (vr sq : Bool) (mode : SqueezeMode) (F : ℝ) (p : Vec3) (hn : Option Vec3)
        (orig : Vec3), interaction_radius mode vr ≤ (orig - p).length →
      Liver.ext_force vr sq mode F (some p) hn orig = 0) ∧
    (∀ (sq lock : Bool) (mode : SqueezeMode) (F : ℝ) (hp : Option Vec3)
        (orig : Vec3) (nm : Option Vec3), (sq && lock) = false →
      (Nose.vertex_force_contact false sq lock mode F hp orig nm).1 = 0) ∧
    (∀ (vr sq lock : Bool) (mode : SqueezeMode) (F : ℝ) (orig : Vec3)
        (nm : Option Vec3),
      (Nose.vertex_force_contact vr sq lock mode F none orig nm).1 = 0) ∧
    (∀ (vr sq lock : Bool) (mode : SqueezeMode) (F : ℝ) (p orig : Vec3)
        (nm : Option Vec3), interaction_radius mode vr ≤ (orig - p).length →
      (Nose.vertex_force_contact vr sq lock mode F (some p) orig nm).1 = 0) ∧
    interaction_radius SqueezeMode.hard false = 2 ∧
    interaction_radius SqueezeMode.soft false = 4 ∧
    interaction_radius SqueezeMode.hard true = 2 + 1.5 ∧
    interaction_radius SqueezeMode.soft true = 4 + 1.5 := by
  refine ⟨liver_ext_force_inactive, liver_ext_force_no_probe,
    fun vr sq mode F p hn orig h => liver_ext_force_far vr sq mode F p hn orig h,
    fun sq lock mode F hp orig nm h => ?_,
    fun vr sq lock mode F orig nm => ?_,
    fun vr sq lock mode F p orig nm h => ?_,
    radius_hard_false, radius_soft_false, radius_hard_true, radius_soft_true⟩
  · rw [nose_vfc_inactive sq lock mode F hp orig nm h]
  · rw [nose_vfc_no_probe vr sq lock mode F orig nm]
  · rw [nose_vfc_far vr sq lock mode F p orig nm h]

/-- C5 witness: the boundary case distance = radius yields zero force in the
liver variant (Hard mode, mouse pick, vertex exactly 2.0 away), inactivity
yields zero in the nose variant, and a far vertex yields zero in the nose
VR variant. -/
theorem c5_witness :
    (interaction_radius SqueezeMode.hard false
        ≤ ((Vec3.mk 2 0 0) - Vec3.mk 0 0 0).length ∧
      Liver.ext_force false true SqueezeMode.hard 60 (some ⟨0, 0, 0⟩)
        (some ⟨0, 0, 1⟩) ⟨2, 0, 0⟩ = 0) ∧
    ((false && false) = false ∧
      (Nose.vertex_force_contact false false false SqueezeMode.soft 60
        (some ⟨0, 0, 0⟩) ⟨0, 0, 0⟩ none).1 = 0) ∧
    (interaction_radius SqueezeMode.soft true
        ≤ ((Vec3.mk 6 0 0) - Vec3.mk 0 0 0).length ∧
      (Nose.vertex_force_contact true false false SqueezeMode.soft 60
        (some ⟨0, 0, 0⟩) ⟨6, 0, 0⟩ none).1 = 0) := by
  have h1 : interaction_radius SqueezeMode.hard false
      ≤ ((Vec3.mk 2 0 0) - Vec3.mk 0 0 0).length := by
    rw [vec3_sub_zero_axis, vec3_length_axis 2 (by norm_num), radius_hard_false]
  have h2 : interaction_radius SqueezeMode.soft true
      ≤ ((Vec3.mk 6 0 0) - Vec3.mk 0 0 0).length := by
    rw [vec3_sub_zero_axis, vec3_length_axis 6 (by norm_num), radius_soft_true]
    norm_num
  exact ⟨⟨h1, c5_zero_force_conditions.2.2.1 false true SqueezeMode.hard 60
      ⟨0, 0, 0⟩ (some ⟨0, 0, 1⟩) ⟨2, 0, 0⟩ h1⟩,
    ⟨rfl, c5_zero_force_conditions.2.2.2.1 false false SqueezeMode.soft 60
      (some ⟨0, 0, 0⟩) ⟨0, 0, 0⟩ none rfl⟩,
    ⟨h2, c5_zero_force_conditions.2.2.2.2.2.1 true false false SqueezeMode.soft 60
      ⟨0, 0, 0⟩ ⟨6, 0, 0⟩ none h2⟩⟩

/-! Claim C2. -/

/-- C2: in the SurfacePick variant (liver, mouse picking), a vertex with
rest distance below the interaction radius receives the force
(negated contact normal) * (forceMagnitude * 1.2) * (1 - d/radius)^3 when a
contact normal is supplied, and the zero vector when it is not. -/
theorem c2_surface_pick_force :
    ∀ (mode : SqueezeMode) (F : ℝ) (p n orig : Vec3),
      (orig - p).length < interaction_radius mode false →
      Liver.ext_force false true mode F (some p) (some n) orig
          = (-n) * (F * 1.2)
              * (1 - (orig - p).length / interaction_radius mode false) ^ (3 : ℕ) ∧
      Liver.ext_force false true mode F (some p) none orig = 0 := by
  intro mode F p n orig h
  refine ⟨?_, liver_ext_force_mouse_pick_no_normal mode F p orig h⟩
  rw [liver_ext_force_mouse_pick mode F p n orig h, Vec3.mul_neg_one]

/-- C2 witness: the SurfacePick force at a vertex one unit from the probe in
Hard mode, with contact normal (0,0,1) and force magnitude 60. -/
theorem c2_witness :
    Liver.ext_force false true SqueezeMode.hard 60 (some ⟨0, 0, 0⟩)
        (some ⟨0, 0, 1⟩) ⟨1, 0, 0⟩
      = (-(⟨0, 0, 1⟩ : Vec3)) * ((60 : ℝ) * 1.2)
          * (1 - ((Vec3.mk 1 0 0) - Vec3.mk 0 0 0).length
              / interaction_radius SqueezeMode.hard false) ^ (3 : ℕ) :=
  (c2_surface_pick_force SqueezeMode.hard 60 ⟨0, 0, 0⟩ ⟨0, 0, 1⟩ ⟨1, 0, 0⟩
    (by rw [vec3_sub_zero_axis, vec3_length_axis 1 (by norm_num), radius_hard_false]
        norm_num)).1

/-! Claim C4. -/

/-- C4: in the radial-repel VolumetricProbe variant (liver, VR hand), a
vertex with rest distance below the interaction radius receives the force
(unit vector from the probe position toward the rest position) *
(forceMagnitude * 1.2) * (1 - d/radius)^3. -/
theorem c4_radial_repel_force :
    ∀ (sq : Bool) (mode : SqueezeMode) (F : ℝ) (p orig : Vec3) (hn : Option Vec3),
      (orig - p).length < interaction_radius mode true →
      Liver.ext_force true sq mode F (some p) hn orig
        = (orig - p).normalized * (F * 1.2)
            * (1 - (orig - p).length / interaction_radius mode true) ^ (3 : ℕ) :=
  fun sq mode F p orig hn h => liver_ext_force_vr sq mode F p orig hn h

/-- C4 witness: the radial-repel force at a vertex one unit from the VR hand
in Hard mode. -/
theorem c4_witness :
    Liver.ext_force true false SqueezeMode.hard 60 (some ⟨0, 0, 0⟩) none ⟨1, 0, 0⟩
      = ((Vec3.mk 1 0 0) - Vec3.mk 0 0 0).normalized * ((60 : ℝ) * 1.2)
          * (1 - ((Vec3.mk 1 0 0) - Vec3.mk 0 0 0).length
              / interaction_radius SqueezeMode.hard true) ^ (3 : ℕ) :=
  c4_radial_repel_force false SqueezeMode.hard 60 ⟨0, 0, 0⟩ ⟨1, 0, 0⟩ none
    (by rw [vec3_sub_zero_axis, vec3_length_axis 1 (by norm_num), radius_hard_true]
        norm_num)

/-! Claim C3. -/

/-- C3: in the normal-driven VolumetricProbe variant (nose), a vertex with
rest distance below the interaction radius receives the force
(negated rest normal) * (forceMagnitude * 1.5) * exp(-d^2 / (2 sigma^2))
with sigma = interactionRadius / 3. -/
theorem c3_gaussian_normal_force :
    ∀ (sq lock : Bool) (mode : SqueezeMode) (F : ℝ) (p orig n : Vec3),
      (orig - p).length < interaction_radius mode true →
      (Nose.vertex_force_contact true sq lock mode F (some p) orig (some n)).1
        = (-n) * (F * 1.5)
            * Real.exp ((-((orig - p).length ^ 2))
                / (2 * (interaction_radius mode true / 3) ^ 2)) := by
  intro sq lock mode F p orig n h
  rw [nose_vfc_gauss sq lock mode F p orig n h]
  show (-n) * (F * 1.5) * Real.exp (-((orig - p).length * (orig - p).length)
      / (2 * (interaction_radius mode true / 3.0)
           * (interaction_radius mode true / 3.0))) = _
  have he : -((orig - p).length * (orig - p).length)
      / (2 * (interaction_radius mode true / 3.0)
           * (interaction_radius mode true / 3.0))
      = (-((orig - p).length ^ 2))
          / (2 * (interaction_radius mode true / 3) ^ 2) := by
    norm_num
    ring
  rw [he]

/-- C3 witness: the Gaussian normal-driven force at a vertex one unit from
the probe in Soft VR mode, rest normal (0,0,1). -/
theorem c3_witness :
    (Nose.vertex_force_contact true false false SqueezeMode.soft 60
        (some ⟨0, 0, 0⟩) ⟨1, 0, 0⟩ (some ⟨0, 0, 1⟩)).1
      = (-(⟨0, 0, 1⟩ : Vec3)) * ((60 : ℝ) * 1.5)
          * Real.exp ((-(((Vec3.mk 1 0 0) - Vec3.mk 0 0 0).length ^ 2))
              / (2 * (interaction_radius SqueezeMode.soft true / 3) ^ 2)) :=
  c3_gaussian_normal_force false false SqueezeMode.soft 60 ⟨0, 0, 0⟩ ⟨1, 0, 0⟩
    ⟨0, 0, 1⟩
    (by rw [vec3_sub_zero_axis, vec3_length_axis 1 (by norm_num), radius_soft_true]
        norm_num)

/-! Claim C10. -/

/-- C10: when the normal stream is shorter than the vertex stream, nose
extraction pads each missing rest normal with (0,0,1), raises no error, the
rest-normal array always has the same length as the vertex array, and the
normal-driven push direction for such a vertex is (0,0,-1). -/
theorem c10_default_normal :
    (∀ (prev : Nose.MeshState) (verts normals : List Vec3),
      (Nose.extract_vertex_data prev verts normals).original_normals.length
        = verts.length) ∧
    (∀ (prev : Nose.MeshState) (verts normals : List Vec3) (i : ℕ),
      normals.length ≤ i → i < verts.length →
      (Nose.extract_vertex_data prev verts normals).original_normals[i]?
        = some ⟨0, 0, 1⟩) ∧
    (∀ (sq lock : Bool) (mode : SqueezeMode) (F : ℝ) (p orig : Vec3),
      (orig - p).length < interaction_radius mode true →
      (Nose.vertex_force_contact true sq lock mode F (some p) orig
          (some ⟨0, 0, 1⟩)).1
        = (⟨0, 0, -1⟩ : Vec3) * (F * 1.5)
            * Real.exp (-((orig - p).length * (orig - p).length)
                / (2 * (interaction_radius mode true / 3.0)
                     * (interaction_radius mode true / 3.0)))) := by
  refine ⟨fun prev verts normals => by simp [Nose.extract_vertex_data],
    fun prev verts normals i hni hiv => ?_, fun sq lock mode F p orig h => ?_⟩
  · show ((List.range verts.length).map
        (fun i => normals.getD i ⟨0, 0, 1⟩))[i]? = some ⟨0, 0, 1⟩
    rw [List.getElem?_map, List.getElem?_range hiv]
    simp [List.getD_eq_default normals _ hni, List.getElem?_eq_none hni]
  · rw [nose_vfc_gauss sq lock mode F p orig ⟨0, 0, 1⟩ h]
    show (-(⟨0, 0, 1⟩ : Vec3)) * (F * 1.5) * _ = _
    have hneg : -(⟨0, 0, 1⟩ : Vec3) = (⟨0, 0, -1⟩ : Vec3) := by
      rw [Vec3.neg_def]
      norm_num
    rw [hneg]

/-- C10 witness: a one-vertex mesh whose normal stream is empty gets the
rest normal (0,0,1) at index 0, and a vertex one unit from the probe with
that rest normal is pushed along (0,0,-1). -/
theorem c10_witness :
    ((Nose.extract_vertex_data ⟨[], [], [], []⟩ [⟨5, 5, 5⟩] []).original_normals[0]?
        = some ⟨0, 0, 1⟩) ∧
    ((Nose.vertex_force_contact true false false SqueezeMode.hard 60
        (some ⟨0, 0, 0⟩) ⟨1, 0, 0⟩ (some ⟨0, 0, 1⟩)).1
      = (⟨0, 0, -1⟩ : Vec3) * ((60 : ℝ) * 1.5)
          * Real.exp (-(((Vec3.mk 1 0 0) - Vec3.mk 0 0 0).length
                * ((Vec3.mk 1 0 0) - Vec3.mk 0 0 0).length)
              / (2 * (interaction_radius SqueezeMode.hard true / 3.0)
                   * (interaction_radius SqueezeMode.hard true / 3.0)))) :=
  ⟨c10_default_normal.2.1 ⟨[], [], [], []⟩ [⟨5, 5, 5⟩] [] 0 (by norm_num)
      (by norm_num),
   c10_default_normal.2.2 false false SqueezeMode.hard 60 ⟨0, 0, 0⟩ ⟨1, 0, 0⟩
    (by rw [vec3_sub_zero_axis, vec3_length_axis 1 (by norm_num), radius_hard_true]
        norm_num)⟩

/-! Per-index characterisation of the two vertex loops. -/

theorem liver_deform_get (vr sq : Bool) (mode : SqueezeMode)
    (F k c m dt : ℝ) (hp hn : Option Vec3) :
    ∀ (curs origs vels : List Vec3) (i : ℕ) (cur orig vel : Vec3),
      curs[i]? = some cur → origs[i]? = some orig → vels[i]? = some vel →
      (Liver.deform_vertices vr sq mode F k c m dt hp hn curs origs vels).1[i]?
          = some (cur + (vel + ((Liver.ext_force vr sq mode F hp hn orig
              + (cur - orig) * (-k) + vel * (-c)) / m) * dt) * dt) ∧
      (Liver.deform_vertices vr sq mode F k c m dt hp hn curs origs vels).2[i]?
          = some (vel + ((Liver.ext_force vr sq mode F hp hn orig
              + (cur - orig) * (-k) + vel * (-c)) / m) * dt) := by
  intro curs
  induction curs with
  | nil =>
    intro origs vels i cur orig vel hc ho hv
    simp at hc
  | cons c0 cs ih =>
    intro origs vels i cur orig vel hc ho hv
    cases origs with
    | nil => simp at ho
    | cons o0 os =>
      cases vels with
      | nil => simp at hv
      | cons v0 vs =>
        cases i with
        | zero =>
          simp only [List.getElem?_cons_zero, Option.some.injEq] at hc ho hv
          subst hc
          subst ho
          subst hv
          constructor <;> simp [Liver.deform_vertices]
        | succ n =>
          simp only [List.getElem?_cons_succ] at hc ho hv
          have hrec := ih os vs n cur orig vel hc ho hv
          refine ⟨?_, ?_⟩
          · simpa [Liver.deform_vertices] using hrec.1
          · simpa [Liver.deform_vertices] using hrec.2

theorem nose_deform_get (vr sq lock : Bool) (mode : SqueezeMode)
    (F k c m dt : ℝ) (hp : Option Vec3) :
    ∀ (curs origs vels norms : List Vec3) (i : ℕ) (cur orig vel : Vec3),
      curs[i]? = some cur → origs[i]? = some orig → vels[i]? = some vel →
      (Nose.deform_vertices vr sq lock mode F k c m dt hp
          curs origs vels norms).1[i]?
          = some (cur + (vel
              + (((Nose.vertex_force_contact vr sq lock mode F hp orig norms[i]?).1
                  + (cur - orig) * (-k) + vel * (-c)) / m) * dt) * dt) ∧
      (Nose.deform_vertices vr sq lock mode F k c m dt hp
          curs origs vels norms).2.1[i]?
          = some (vel
              + (((Nose.vertex_force_contact vr sq lock mode F hp orig norms[i]?).1
                  + (cur - orig) * (-k) + vel * (-c)) / m) * dt) := by
  intro curs
  induction curs with
  | nil =>
    intro origs vels norms i cur orig vel hc ho hv
    simp at hc
  | cons c0 cs ih =>
    intro origs vels norms i cur orig vel hc ho hv
    cases origs with
    | nil => simp at ho
    | cons o0 os =>
      cases vels with
      | nil => simp at hv
      | cons v0 vs =>
        cases i with
        | zero =>
          simp only [List.getElem?_cons_zero, Option.some.injEq] at hc ho hv
          subst hc
          subst ho
          subst hv
          constructor <;>
            simp [Nose.deform_vertices, list_head?_eq_getElem?]
        | succ n =>
          simp only [List.getElem?_cons_succ] at hc ho hv
          have hrec := ih os vs norms.tail n cur orig vel hc ho hv
          rw [list_tail_getElem?] at hrec
          refine ⟨?_, ?_⟩
          · simpa [Nose.deform_vertices] using hrec.1
          · simpa [Nose.deform_vertices] using hrec.2

/-! Claim C1. -/

/-- C1: in both variants one integration step is exactly forward Euler per
vertex, each vertex independent of all others: with
displacement = current - rest, springForce = displacement * (-springConstant)
where springConstant = recoverySpeed * 5.0, dampingForce = velocity *
(-dampingCoefficient) (10.0 in the liver variant, damping_value in the nose
variant), acceleration = (externalForce + springForce + dampingForce) / mass
with mass fixed at 1.0, the new velocity is velocity + acceleration * dt and
the new position is current + newVelocity * dt; the outputs at index i are
determined by the inputs at index i alone. -/
theorem c1_forward_euler_step :
    (∀ (p : Liver.Params) (vr sq : Bool) (dt : ℝ) (hp hn : Option Vec3)
        (s : Liver.MeshState) (i : ℕ) (cur orig vel : Vec3),
      s.live_verts[i]? = some cur → s.original_verts[i]? = some orig →
      s.vertex_velocities[i]? = some vel →
      (Liver.deform_mesh p vr sq dt hp hn s).1.live_verts[i]?
          = some (cur + (vel
              + ((Liver.ext_force vr sq p.squeeze_mode p.user_force hp hn orig
                  + (cur - orig) * (-(p.recovery_speed * 5.0))
                  + vel * (-(10.0 : ℝ))) / (1.0 : ℝ)) * dt) * dt) ∧
      (Liver.deform_mesh p vr sq dt hp hn s).1.vertex_velocities[i]?
          = some (vel
              + ((Liver.ext_force vr sq p.squeeze_mode p.user_force hp hn orig
                  + (cur - orig) * (-(p.recovery_speed * 5.0))
                  + vel * (-(10.0 : ℝ))) / (1.0 : ℝ)) * dt)) ∧
    (∀ (p : Nose.Params) (vr sq lock : Bool) (dt : ℝ) (hp hn : Option Vec3)
        (s : Nose.MeshState) (i : ℕ) (cur orig vel : Vec3),
      s.live_verts[i]? = some cur → s.original_verts[i]? = some orig →
      s.vertex_velocities[i]? = some vel →
      (Nose.deform_mesh p vr sq lock dt hp hn s).1.live_verts[i]?
          = some (cur + (vel
              + (((Nose.vertex_force_contact vr sq lock p.squeeze_mode
                      p.user_force hp orig s.original_normals[i]?).1
                  + (cur - orig) * (-(p.recovery_speed * 5.0))
                  + vel * (-p.damping_value)) / (1.0 : ℝ)) * dt) * dt) ∧
      (Nose.deform_mesh p vr sq lock dt hp hn s).1.vertex_velocities[i]?
          = some (vel
              + (((Nose.vertex_force_contact vr sq lock p.squeeze_mode
                      p.user_force hp orig s.original_normals[i]?).1
                  + (cur - orig) * (-(p.recovery_speed * 5.0))
                  + vel * (-p.damping_value)) / (1.0 : ℝ)) * dt)) := by
  constructor
  · intro p vr sq dt hp hn s i cur orig vel hc ho hv
    have h := liver_deform_get vr sq p.squeeze_mode p.user_force
      (Liver.spring_k p) Liver.damping Liver.mass dt hp hn
      s.live_verts s.original_verts s.vertex_velocities i cur orig vel hc ho hv
    rw [Liver.spring_k, Liver.damping, Liver.mass] at h
    exact ⟨h.1, h.2⟩
  · intro p vr sq lock dt hp hn s i cur orig vel hc ho hv
    have h := nose_deform_get vr sq lock p.squeeze_mode p.user_force
      (p.recovery_speed * 5.0) p.damping_value 1.0 dt hp
      s.live_verts s.original_verts s.vertex_velocities s.original_normals
      i cur orig vel hc ho hv
    exact ⟨h.1, h.2⟩

/-- C1 witness: the step formula at index 0 of a one-vertex mesh at rest
with no interaction, in both variants. -/
theorem c1_witness :
    ((Liver.deform_mesh ⟨SqueezeMode.hard, 60, 8⟩ false false 1 none none
        ⟨[⟨0, 0, 0⟩], [⟨0, 0, 0⟩], [⟨0, 0, 0⟩]⟩).1.live_verts[0]?
      = some ((⟨0, 0, 0⟩ : Vec3) + ((⟨0, 0, 0⟩ : Vec3)
          + ((Liver.ext_force false false SqueezeMode.hard 60 none none ⟨0, 0, 0⟩
              + ((⟨0, 0, 0⟩ : Vec3) - ⟨0, 0, 0⟩) * (-((8 : ℝ) * 5.0))
              + (⟨0, 0, 0⟩ : Vec3) * (-(10.0 : ℝ))) / (1.0 : ℝ)) * (1 : ℝ)) * (1 : ℝ))) ∧
    ((Nose.deform_mesh ⟨SqueezeMode.soft, 60, 2, 3⟩ true false false 1 none none
        ⟨[⟨0, 0, 0⟩], [⟨0, 0, 1⟩], [⟨0, 0, 0⟩], [⟨0, 0, 0⟩]⟩).1.live_verts[0]?
      = some ((⟨0, 0, 0⟩ : Vec3) + ((⟨0, 0, 0⟩ : Vec3)
          + (((Nose.vertex_force_contact true false false SqueezeMode.soft 60
                  none ⟨0, 0, 0⟩ ([(⟨0, 0, 1⟩ : Vec3)])[0]?).1
              + ((⟨0, 0, 0⟩ : Vec3) - ⟨0, 0, 0⟩) * (-((2 : ℝ) * 5.0))
              + (⟨0, 0, 0⟩ : Vec3) * (-(3 : ℝ))) / (1.0 : ℝ)) * (1 : ℝ)) * (1 : ℝ))) :=
  ⟨(c1_forward_euler_step.1 ⟨SqueezeMode.hard, 60, 8⟩ false false 1 none none
      ⟨[⟨0, 0, 0⟩], [⟨0, 0, 0⟩], [⟨0, 0, 0⟩]⟩ 0 ⟨0, 0, 0⟩ ⟨0, 0, 0⟩ ⟨0, 0, 0⟩
      rfl rfl rfl).1,
   (c1_forward_euler_step.2 ⟨SqueezeMode.soft, 60, 2, 3⟩ true false false 1
      none none ⟨[⟨0, 0, 0⟩], [⟨0, 0, 1⟩], [⟨0, 0, 0⟩], [⟨0, 0, 0⟩]⟩ 0
      ⟨0, 0, 0⟩ ⟨0, 0, 0⟩ ⟨0, 0, 0⟩ rfl rfl rfl).1⟩

/-! Characterisation of the nose contact flag. -/

theorem nose_vfc_snd (vr sq lock : Bool) (mode : SqueezeMode) (F : ℝ)
    (hp : Option Vec3) (orig : Vec3) (nm : Option Vec3) :
    ((Nose.vertex_force_contact vr sq lock mode F hp orig nm).2 = true)
      ↔ ((vr || (sq && lock)) = true ∧
          ∃ pt, hp = some pt ∧
            (orig - pt).length < interaction_radius mode vr) := by
  unfold Nose.vertex_force_contact
  cases hA : vr || (sq && lock) with
  | false => simp
  | true =>
    cases hp with
    | none => simp
    | some p =>
      by_cases hd : (orig - p).length < interaction_radius mode vr
      · simp [hd]
      · simp [hd]

theorem nose_deform_flag (vr sq lock : Bool) (mode : SqueezeMode)
    (F k c m dt : ℝ) (hp : Option Vec3) :
    ∀ (curs origs vels norms : List Vec3),
      curs.length = origs.length → curs.length = vels.length →
      ((Nose.deform_vertices vr sq lock mode F k c m dt hp
          curs origs vels norms).2.2 = true
        ↔ ((vr || (sq && lock)) = true ∧
            ∃ pt, hp = some pt ∧
              ∃ orig ∈ origs,
                (orig - pt).length < interaction_radius mode vr)) := by
  intro curs
  induction curs with
  | nil =>
    intro origs vels norms h1 h2
    have ho : origs = [] := by
      cases origs with
      | nil => rfl
      | cons a b => simp at h1
    subst ho
    simp [Nose.deform_vertices]
  | cons c0 cs ih =>
    intro origs vels norms h1 h2
    cases origs with
    | nil => simp at h1
    | cons o0 os =>
      cases vels with
      | nil => simp at h2
      | cons v0 vs =>
        have h1s : cs.length = os.length := by simpa using h1
        have h2s : cs.length = vs.length := by simpa using h2
        have hstep : (Nose.deform_vertices vr sq lock mode F k c m dt hp
            (c0 :: cs) (o0 :: os) (v0 :: vs) norms).2.2
            = ((Nose.vertex_force_contact vr sq lock mode F hp o0 norms.head?).2
                || (Nose.deform_vertices vr sq lock mode F k c m dt hp
                      cs os vs norms.tail).2.2) := by
          simp [Nose.deform_vertices]
        rw [hstep, Bool.or_eq_true, nose_vfc_snd, ih os vs norms.tail h1s h2s]
        constructor
        · rintro (⟨hA, pt, hpt, hd⟩ | ⟨hA, pt, hpt, orig, hmem, hd⟩)
          · exact ⟨hA, pt, hpt, o0, List.mem_cons_self o0 os, hd⟩
          · exact ⟨hA, pt, hpt, orig, List.mem_cons_of_mem o0 hmem, hd⟩
        · rintro ⟨hA, pt, hpt, orig, hmem, hd⟩
          rcases List.mem_cons.mp hmem with heq | hmem2
          · subst heq
            exact Or.inl ⟨hA, pt, hpt, hd⟩
          · exact Or.inr ⟨hA, pt, hpt, orig, hmem2, hd⟩

/-! Claim C6 (corrected).  The nose per-frame step really returns the
claimed OR-reduction contact flag, but the liver per-frame step — also named
by the claim — has no return statement at all: its return value is None,
not a boolean. -/

/-- C6 counterexample: in the liver variant, at a concrete input with an
active VR interaction, a present probe, and a vertex at distance 0 (inside
every radius), the claim requires the step to return the boolean true, but
the step returns None (no contact flag at all). -/
theorem c6_counterexample :
    (Liver.deform_mesh ⟨SqueezeMode.hard, 60, 8⟩ true false 0.01
        (some ⟨0, 0, 0⟩) none ⟨[⟨0, 0, 0⟩], [⟨0, 0, 0⟩], [⟨0, 0, 0⟩]⟩).2
      ≠ some true ∧
    (Liver.deform_mesh ⟨SqueezeMode.hard, 60, 8⟩ true false 0.01
        (some ⟨0, 0, 0⟩) none ⟨[⟨0, 0, 0⟩], [⟨0, 0, 0⟩], [⟨0, 0, 0⟩]⟩).2
      = none := by
  constructor
  · intro h
    exact Option.noConfusion h
  · rfl

/-- C6 amended: the nose variant's per-frame step returns a contact flag
that is true exactly when the interaction is active, the probe position is
present, and some vertex's rest distance to the probe is strictly below the
interaction radius (an OR-reduction over the vertices); the liver variant's
per-frame step returns no contact flag (None). -/
theorem c6_amended_contact_flag :
    (∀ (p : Nose.Params) (vr sq lock : Bool) (dt : ℝ) (hp hn : Option Vec3)
        (s : Nose.MeshState),
      s.live_verts.length = s.original_verts.length →
      s.live_verts.length = s.vertex_velocities.length →
      ((Nose.deform_mesh p vr sq lock dt hp hn s).2 = true
        ↔ ((vr || (sq && lock)) = true ∧
            ∃ pt, hp = some pt ∧
              ∃ orig ∈ s.original_verts,
                (orig - pt).length < interaction_radius p.squeeze_mode vr))) ∧
    (∀ (p : Liver.Params) (vr sq : Bool) (dt : ℝ) (hp hn : Option Vec3)
        (s : Liver.MeshState),
      (Liver.deform_mesh p vr sq dt hp hn s).2 = none) := by
  constructor
  · intro p vr sq lock dt hp hn s h1 h2
    have h := nose_deform_flag vr sq lock p.squeeze_mode p.user_force
      (p.recovery_speed * 5.0) p.damping_value 1.0 dt hp
      s.live_verts s.original_verts s.vertex_velocities s.original_normals h1 h2
    exact h
  · intro p vr sq dt hp hn s
    rfl

/-- C6 amended witness: the amended flag equivalence at a concrete
one-vertex nose mesh. -/
theorem c6_witness :
    (Nose.deform_mesh ⟨SqueezeMode.soft, 60, 2, 3⟩ true false false 0.01
        (some ⟨0, 0, 0⟩) none
        ⟨[⟨0, 0, 0⟩], [⟨0, 0, 1⟩], [⟨0, 0, 0⟩], [⟨0, 0, 0⟩]⟩).2 = true
      ↔ ((true || (false && false)) = true ∧
          ∃ pt, (some (⟨0, 0, 0⟩ : Vec3)) = some pt ∧
            ∃ orig ∈ [(⟨0, 0, 0⟩ : Vec3)],
              (orig - pt).length < interaction_radius SqueezeMode.soft true) :=
  c6_amended_contact_flag.1 ⟨SqueezeMode.soft, 60, 2, 3⟩ true false false 0.01
    (some ⟨0, 0, 0⟩) none ⟨[⟨0, 0, 0⟩], [⟨0, 0, 1⟩], [⟨0, 0, 0⟩], [⟨0, 0, 0⟩]⟩
    rfl rfl
